import Mathlib

/-!
Formal model of the `ifc2` Infinite Flight Connect v2 client
(`src/ifc2.js` of the ifconnect-shell repository), together with theorems
settling the specification's claims about its protocol engine.

Conventions of the shallow embedding:

* A Node `Buffer` is a `List Nat` of byte values; multi-byte integers are
  little-endian.
* Node `Buffer.read*` methods throw `ERR_OUT_OF_RANGE` when the read would
  run past the end of the buffer; we model a read as an `Option`, where
  `none` is the thrown exception.  A state-transition function returning
  `none` models a handler that threw.
* JavaScript 32-bit signed reads produce `Int` via `toInt32`; unsigned
  reads produce `Nat`.
* IEEE-754 float payloads are carried as raw byte lists (their numeric
  interpretation is never needed by the claims).
-/

namespace Ifc2

/-- Node `buf.readUInt8 off`: one byte, `none` models the thrown
`ERR_OUT_OF_RANGE` when out of bounds. -/
def readUInt8 (b : List Nat) (off : Nat) : Option Nat :=
  if off + 1 ≤ b.length then some (b.getD off 0) else none

/-- Node `buf.readUInt32LE off`: little-endian 32-bit unsigned read. -/
def readUInt32LE (b : List Nat) (off : Nat) : Option Nat :=
  if off + 4 ≤ b.length then
    some (b.getD off 0 + 256 * b.getD (off + 1) 0 +
          65536 * b.getD (off + 2) 0 + 16777216 * b.getD (off + 3) 0)
  else none

/-- Reinterpret an unsigned 32-bit value as a signed one (two's complement),
as JavaScript's `readInt32LE` does. -/
def toInt32 (n : Nat) : Int :=
  if n < 2147483648 then (n : Int) else (n : Int) - 4294967296

/-- Node `buf.readInt32LE off`: little-endian 32-bit signed read. -/
def readInt32LE (b : List Nat) (off : Nat) : Option Int :=
  (readUInt32LE b off).map toInt32

/-- Bounds-checked read of `n` raw bytes at `off` (models `readFloatLE`,
`readDoubleLE`, `readBigInt64LE`, which we keep as raw bytes). -/
def readBytes (b : List Nat) (off n : Nat) : Option (List Nat) :=
  if off + n ≤ b.length then some ((b.drop off).take n) else none

/-- The four little-endian bytes of an `Int`, as `DataView.setInt32`
stores them (value taken mod 2^32). -/
def le32 (n : Int) : List Nat :=
  let m := (n % 4294967296).toNat
  [m % 256, m / 256 % 256, m / 65536 % 256, m / 16777216 % 256]

/-- `buf.slice(start, buf.length)` with JavaScript's negative-index and
clamping semantics. -/
def jsSlice (b : List Nat) (start : Int) : List Nat :=
  let s : Nat :=
    if start < 0 then (max ((b.length : Int) + start) 0).toNat
    else min start.toNat b.length
  b.drop s

/-- `buf.toString('utf8', start, stop)`: Node clamps `stop` to the buffer
length and never throws; we keep the selected bytes (UTF-8 decoding is the
identity on the byte content for our purposes). -/
def bufToStringBytes (b : List Nat) (start stop : Nat) : List Nat :=
  (b.take (min stop b.length)).drop start

/-! ## Manifest loader (`getManifest` data handler, src/ifc2.js 488-549)

State touched by the `manifestSocket.on('data', ...)` handler.  The
`processed` flag records that the handler reached the branch that decodes
the buffer (`manifestBuffer.toString('utf8', 12)`), destroys the socket and
calls `processManifest` — i.e. that the parsed catalog was produced. -/

structure ManifestState where
  manifestLength : Int
  manifestBuffer : Option (List Nat)
  manifestData : List Nat
  processed : Bool
deriving DecidableEq

/-- The reset state established at the top of `getManifest`
(`manifestData = ''`, `manifestLength = 0`, `manifestBuffer = null`). -/
def manifestInit : ManifestState :=
  { manifestLength := 0, manifestBuffer := none,
    manifestData := [], processed := false }

/-- One firing of the manifest socket's `data` handler (src/ifc2.js
488-549): concatenate the segment onto `manifestBuffer`; then EITHER
(when no length is known yet and at least 12 bytes are buffered) read the
text length from bytes 8..12, OR (otherwise) check whether the buffer has
reached `manifestLength + 12` bytes and, if so, decode from byte 12 on and
process the manifest.  The two steps are `if`/`else` alternatives in the
source, exactly as transcribed here. -/
def manifestOnData (st : ManifestState) (data : List Nat) : Option ManifestState :=
  let buf := match st.manifestBuffer with
    | none => data
    | some b => b ++ data
  if st.manifestLength ≤ 0 ∧ 12 ≤ buf.length then
    (readInt32LE buf 8).map fun len =>
      { st with manifestBuffer := some buf, manifestLength := len }
  else if st.manifestLength + 12 ≤ (buf.length : Int) then
    some { manifestLength := st.manifestLength, manifestBuffer := some buf,
           manifestData := buf.drop 12, processed := true }
  else
    some { st with manifestBuffer := some buf }

/-- A complete 18-byte manifest response delivered in one segment:
header `FF FF FF FF | 0A 00 00 00 | 06 00 00 00` (command −1, total
length 10, text length 6) followed by the 6 text bytes of `"1,2,a\n"`. -/
def c1Response : List Nat :=
  [255, 255, 255, 255, 10, 0, 0, 0, 6, 0, 0, 0, 49, 44, 50, 44, 97, 10]

/-- Claim C1: the spec says that once the accumulated buffer holds
`12 + text_length` bytes the loader decodes the remainder and produces the
parsed catalog, in particular when the entire response arrives in a single
data delivery.  The code violates this: on the delivery that first
reaches 12 bytes it only records the text length (the completeness check
sits in the `else` branch), so a complete single-delivery response is left
undecoded — `processed = false` — even though the buffer already holds
`12 + 6` bytes.  With no further data event the manifest is never parsed
and the socket times out. -/
theorem manifest_single_delivery_unprocessed :
    manifestOnData manifestInit c1Response =
      some { manifestLength := 6, manifestBuffer := some c1Response,
             manifestData := [], processed := false } ∧
    12 + 6 ≤ c1Response.length := by
  exact ⟨rfl, by decide⟩

/-! ## Response demultiplexer (`processData`, src/ifc2.js 747-882)

The six wire types of the v2 API (src/ifc2.js 67-72). -/

inductive WireType where
  | boolean
  | integer
  | float
  | double
  | string
  | long
deriving DecidableEq

/-- A decoded value as delivered to `processResult`.  Float, double, long
and string payloads are kept as raw bytes. -/
inductive IFValue where
  | boolV (v : Bool)
  | intV (v : Nat)
  | floatV (bytes : List Nat)
  | doubleV (bytes : List Nat)
  | strV (bytes : List Nat)
  | longV (bytes : List Nat)
deriving DecidableEq

/-- JavaScript `Array.prototype.indexOf`: first index of `y`, `-1` when
absent. -/
def jsIndexOf {α : Type} [DecidableEq α] : List α → α → Int
  | [], _ => -1
  | x :: xs, y =>
    if x = y then 0
    else
      let r := jsIndexOf xs y
      if r = -1 then -1 else r + 1

/-- State of the command session that `processData('client', ...)` reads
and writes: the receive buffer `qBuffer`, the wait list, the `isWaiting`
flag, and (appended by `processResult`) the values delivered so far, keyed
by command id. -/
structure SessionState where
  qBuffer : Option (List Nat)
  waitList : List Int
  isWaiting : Bool
  results : List (Int × IFValue)
deriving DecidableEq

/-- The per-type decode switch of `processData` (src/ifc2.js 801-841):
boolean via `readUInt8(8) == 1`, integer via `readUInt32LE(8)`,
float/double/long as raw payload bytes, string via a length prefix at
byte 8 and `toString('utf8', 12, strLen + 12)`. -/
def decodePayload : WireType → List Nat → Option IFValue
  | .boolean, data => (readUInt8 data 8).map fun b => .boolV (b == 1)
  | .integer, data => (readUInt32LE data 8).map .intV
  | .float, data => (readBytes data 8 4).map .floatV
  | .double, data => (readBytes data 8 8).map .doubleV
  | .string, data =>
      (readUInt32LE data 8).map fun strLen =>
        .strV (bufToStringBytes data 12 (strLen + 12))
  | .long, data => (readBytes data 8 8).map .longV

/-- One invocation of `processData` for the command session (src/ifc2.js
747-882).  `manifest` maps command ids to their declared wire type
(`manifestByCommand`).  Mirrors the source: read the command id at
byte 0; if it is in the manifest and on the wait list and the buffer has
more than 4 bytes, read `bufLength` at byte 4; if the buffer holds
`bufLength + 8` bytes, splice the id off the wait list, decode per type,
deliver, then either slice the frame off the buffer (when more bytes
remain) or null the buffer and clear `isWaiting` when the wait list is
empty.  Every other path calls `nextFN` and leaves the state unchanged.
`none` models a thrown `ERR_OUT_OF_RANGE` from a `Buffer` read.  `nextFN`
for this session is `processQueue`, which only dispatches a new request
and never touches the receive buffer, so it is not modelled. -/
def processData (manifest : List (Int × WireType)) (st : SessionState) :
    Option SessionState :=
  match st.qBuffer with
  | none => none
  | some data =>
    (readInt32LE data 0).bind fun command =>
      match manifest.lookup command with
      | none => some st
      | some t =>
        let waitIndex := jsIndexOf st.waitList command
        if waitIndex < 0 then some st
        else if 4 < data.length then
          (readInt32LE data 4).bind fun bufLength =>
            if bufLength + 8 ≤ (data.length : Int) then
              let wl := st.waitList.eraseIdx waitIndex.toNat
              (decodePayload t data).bind fun v =>
                let st1 : SessionState :=
                  { st with waitList := wl,
                            results := st.results ++ [(command, v)] }
                if bufLength + 8 < (data.length : Int) then
                  some { st1 with
                         qBuffer := some (jsSlice data (bufLength + 8)) }
                else
                  some { st1 with
                         qBuffer := none,
                         isWaiting := if wl.length = 0 then false
                                      else st1.isWaiting }
            else some st
        else some st

/-- The `clientSocket.on('data', ...)` handler (src/ifc2.js 897-914):
concatenate the arriving segment onto `qBuffer`, then run `processData`
once. -/
def clientOnData (manifest : List (Int × WireType)) (st : SessionState)
    (data : List Nat) : Option SessionState :=
  let buf := match st.qBuffer with
    | none => data
    | some b => b ++ data
  processData manifest { st with qBuffer := some buf }

/-! ### Claim C2: two concatenated frames in one delivery -/

/-- Manifest with two integer-typed entries, ids 1 and 2. -/
def c2Manifest : List (Int × WireType) := [(1, .integer), (2, .integer)]

/-- Command session awaiting responses for both ids, empty buffer. -/
def c2Session : SessionState :=
  { qBuffer := none, waitList := [1, 2], isWaiting := true, results := [] }

/-- The second of the two concatenated 12-byte integer frames
(command 2, payload length 4, payload value 7). -/
def c2Frame2 : List Nat := [2, 0, 0, 0, 4, 0, 0, 0, 7, 0, 0, 0]

/-- Claim C2 (counterexample): the claim says that when two complete
frames arrive concatenated in one delivery, BOTH are decoded, in order,
during the processing triggered by that arrival.  Feeding the 24-byte
concatenation of frame (1, payload 42) and frame (2, payload 7) to the
data handler decodes only the first: the delivered results are just
`(1, 42)`, and the complete 12-byte second frame is still sitting in the
receive buffer when processing returns. -/
theorem two_frames_single_arrival_only_first_decoded :
    clientOnData c2Manifest c2Session
        ([1, 0, 0, 0, 4, 0, 0, 0, 42, 0, 0, 0] ++ c2Frame2) =
      some { qBuffer := some c2Frame2, waitList := [2], isWaiting := true,
             results := [(1, IFValue.intV 42)] } ∧
    c2Frame2.length = 12 := by
  exact ⟨rfl, rfl⟩

/-- Claim C2 (amended): one invocation of the demultiplexer drains exactly
one complete frame.  For any payload bytes, delivering the concatenation of
the frames for ids 1 and 2 in a single arrival decodes only the first
frame and leaves the complete second frame at the head of the buffer; the
second frame is decoded when processing runs again on the next arrival. -/
theorem two_frames_drain_one_per_processing
    (a0 a1 a2 a3 b0 b1 b2 b3 : Nat) :
    clientOnData c2Manifest c2Session
        (1 :: 0 :: 0 :: 0 :: 4 :: 0 :: 0 :: 0 :: a0 :: a1 :: a2 :: a3 ::
         2 :: 0 :: 0 :: 0 :: 4 :: 0 :: 0 :: 0 :: b0 :: b1 :: b2 :: [b3]) =
      some { qBuffer :=
               some (2 :: 0 :: 0 :: 0 :: 4 :: 0 :: 0 :: 0 ::
                     b0 :: b1 :: b2 :: [b3]),
             waitList := [2], isWaiting := true,
             results :=
               [(1, IFValue.intV (a0 + 256 * a1 + 65536 * a2 +
                                  16777216 * a3))] } ∧
    processData c2Manifest
        { qBuffer :=
            some (2 :: 0 :: 0 :: 0 :: 4 :: 0 :: 0 :: 0 ::
                  b0 :: b1 :: b2 :: [b3]),
          waitList := [2], isWaiting := true,
          results :=
            [(1, IFValue.intV (a0 + 256 * a1 + 65536 * a2 +
                               16777216 * a3))] } =
      some { qBuffer := none, waitList := [], isWaiting := false,
             results :=
               [(1, IFValue.intV (a0 + 256 * a1 + 65536 * a2 +
                                  16777216 * a3)),
                (2, IFValue.intV (b0 + 256 * b1 + 65536 * b2 +
                                  16777216 * b3))] } := by
  exact ⟨rfl, rfl⟩

/-! ### Claim C3: boolean payload decoding -/

/-- Manifest with one boolean-typed entry, id 5. -/
def c3Manifest : List (Int × WireType) := [(5, .boolean)]

/-- Command session awaiting the response for id 5. -/
def c3Session : SessionState :=
  { qBuffer := none, waitList := [5], isWaiting := true, results := [] }

/-- Claim C3 (counterexample): the claim says any nonzero boolean payload
byte is delivered as `true`.  A complete frame for the boolean command 5
with payload byte 2 (nonzero) is delivered as `false`, because the source
tests `readUInt8(8) == 1`. -/
theorem boolean_nonzero_two_decodes_false :
    clientOnData c3Manifest c3Session [5, 0, 0, 0, 1, 0, 0, 0, 2] =
      some { qBuffer := none, waitList := [], isWaiting := false,
             results := [(5, IFValue.boolV false)] } := by
  exact rfl

/-- Claim C3 (amended): a boolean payload byte equal to 1 is delivered as
`true` and any other byte — zero or nonzero — is delivered as `false`: the
delivered value is exactly `payload_byte == 1`. -/
theorem boolean_decodes_eq_one (b : Nat) :
    clientOnData c3Manifest c3Session [5, 0, 0, 0, 1, 0, 0, 0, b] =
      some { qBuffer := none, waitList := [], isWaiting := false,
             results := [(5, IFValue.boolV (b == 1))] } := by
  exact rfl

/-! ### Claim C4: integer payload decoding -/

/-- Manifest with one integer-typed entry, id 7. -/
def c4Manifest : List (Int × WireType) := [(7, .integer)]

/-- Command session awaiting the response for id 7. -/
def c4Session : SessionState :=
  { qBuffer := none, waitList := [7], isWaiting := true, results := [] }

/-- Claim C4 (counterexample): the claim says the 4-byte integer payload
is interpreted as little-endian 32-bit SIGNED, so `FF FF FF FF` delivers
−1.  The source uses `readUInt32LE(8)`: the delivered value is the number
4294967295, whereas the signed interpretation of those bytes is −1, a
different value. -/
theorem integer_allones_decodes_unsigned :
    clientOnData c4Manifest c4Session
        [7, 0, 0, 0, 4, 0, 0, 0, 255, 255, 255, 255] =
      some { qBuffer := none, waitList := [], isWaiting := false,
             results := [(7, IFValue.intV 4294967295)] } ∧
    toInt32 4294967295 = -1 ∧ (4294967295 : Int) ≠ -1 := by
  exact ⟨rfl, rfl, by decide⟩

/-- Claim C4 (amended): the delivered value of an integer-typed frame is
the 4-byte payload interpreted as a little-endian 32-bit UNSIGNED integer
(so `FF FF FF FF` delivers 4294967295, not −1). -/
theorem integer_decodes_unsigned_le (a0 a1 a2 a3 : Nat) :
    clientOnData c4Manifest c4Session
        (7 :: 0 :: 0 :: 0 :: 4 :: 0 :: 0 :: 0 :: a0 :: a1 :: a2 :: [a3]) =
      some { qBuffer := none, waitList := [], isWaiting := false,
             results := [(7, IFValue.intV (a0 + 256 * a1 + 65536 * a2 +
                                           16777216 * a3))] } := by
  exact rfl

/-! ### Claim C6: underflowing buffers of 5 to 7 bytes -/

/-- Manifest with one integer-typed entry, id 1 (for the underflow case
the declared type is irrelevant: the throw happens before the decode). -/
def c6Manifest : List (Int × WireType) := [(1, .integer)]

/-- Command session whose buffer holds only 5 bytes: the command id 1 is
complete but the payload-length field is not. -/
def c6State : SessionState :=
  { qBuffer := some [1, 0, 0, 0, 0], waitList := [1], isWaiting := true,
    results := [] }

/-- Claim C6: the claim (and spec) says an incomplete frame — in
particular a 5-to-7-byte buffer — is handled without error, delivering
nothing and leaving all state unchanged.  The code instead guards the
length read only with `data.length > 4` and then calls
`data.readInt32LE(4)`, which needs 8 bytes: on the 5-byte buffer the read
throws `ERR_OUT_OF_RANGE` (modelled as `none`) instead of waiting for more
bytes. -/
theorem processData_five_bytes_throws :
    processData c6Manifest c6State = none ∧
    (c6State.qBuffer.getD []).length = 5 := by
  exact ⟨rfl, rfl⟩

/-! ## Write-request encoder (`setCommand`, src/ifc2.js 240-301) -/

/-- Pad or truncate a byte list to exactly `w` bytes.  A `DataView` setter
always stores exactly its width, so the width of a write is a property of
the setter, not of the value's encoding. -/
def fit (w : Nat) (bytes : List Nat) : List Nat :=
  bytes.take w ++ List.replicate (w - bytes.length) 0

/-- A `DataView` setter writing `w` bytes at `off`: it throws a
`RangeError` (`none`) when `off + w` exceeds the buffer size, otherwise
stores the bytes in place. -/
def dvWriteN (buf : List Nat) (off w : Nat) (bytes : List Nat) :
    Option (List Nat) :=
  if off + w ≤ buf.length then
    some (buf.take off ++ fit w bytes ++ buf.drop (off + w))
  else none

/-- A JavaScript value handed to `setCommand`.  A number carries its
(abstract) byte encodings at each `DataView` width — `setInt8` stores one
byte, `setInt32` four, `setFloat32` four, `setFloat64` eight; IEEE-754
content is never computed.  A string carries its bytes, a BigInt its
8-byte encoding.  A value whose kind does not match the manifest type is
not modelled (the untyped source would misbehave there in yet other
ways). -/
inductive SetValue where
  | num (b1 : Nat) (i4 : List Nat) (f4 : List Nat) (f8 : List Nat)
  | str (bytes : List Nat)
  | big (b8 : List Nat)

/-- The `dataLength` switch of `setCommand` (src/ifc2.js 247-265):
INTEGER, FLOAT and DOUBLE all get 4 bytes, STRING `4 + val.length`,
LONG 8; the switch has no BOOLEAN case, so the initialiser
`let dataLength = 1` applies. -/
def dataLength (t : WireType) (valLen : Nat) : Nat :=
  match t with
  | .integer => 4
  | .float => 4
  | .double => 4
  | .string => 4 + valLen
  | .long => 8
  | .boolean => 1

/-- The `val.length` used by the `dataLength` switch (only strings have
one; for the other kinds the switch never consults it). -/
def valLen : SetValue → Nat
  | .str bs => bs.length
  | _ => 0

/-- `setCommand` (src/ifc2.js 240-301): allocate an ArrayBuffer of
`5 + dataLength` bytes, `setInt32(0, cmd)`, `setInt8(4, 1)` (the SETCMD
flag), then encode the value per the manifest type: `setInt8(5)` for
boolean, `setInt32(5)` for integer, `setFloat32(5)` for float,
`setFloat64(5)` for double, `setInt32(5, val.length)` plus
`setString(9, val)` for string, `setBigInt64(5)` for long.  `none` models
a thrown `RangeError`. -/
def setCommand (cmd : Int) (t : WireType) (v : SetValue) :
    Option (List Nat) :=
  let dl := dataLength t (valLen v)
  let b0 := List.replicate (5 + dl) 0
  (dvWriteN b0 0 4 (le32 cmd)).bind fun bA =>
    (dvWriteN bA 4 1 [1]).bind fun bB =>
      match t, v with
      | .boolean, .num n _ _ _ => dvWriteN bB 5 1 [n]
      | .integer, .num _ i4 _ _ => dvWriteN bB 5 4 i4
      | .float, .num _ _ f4 _ => dvWriteN bB 5 4 f4
      | .double, .num _ _ _ f8 => dvWriteN bB 5 8 f8
      | .string, .str bs =>
          (dvWriteN bB 5 4 (le32 (bs.length : Int))).bind fun bC =>
            dvWriteN bC 9 bs.length bs
      | .long, .big b8 => dvWriteN bB 5 8 b8
      | _, _ => none

/-- Claim C5: the claim says `set` on a Double-typed entry produces,
without raising an error, the 13-byte frame
`[i32 command_id][u8 1][8-byte LE double]`.  The source's `dataLength`
switch assigns DOUBLE only 4 value bytes, so the ArrayBuffer is 9 bytes,
and the subsequent `setFloat64(5, val)` needs bytes 5..13: the write
throws a `RangeError` (`none`) for every command id and every double
value, and no frame is ever produced. -/
theorem setCommand_double_overflows (cmd : Int) (n : Nat)
    (i4 f4 f8 : List Nat) :
    setCommand cmd WireType.double (SetValue.num n i4 f4 f8) = none := by
  exact rfl

/-! ## Poll subscription management (src/ifc2.js 712-740) -/

/-- Whether a character list is the canonical decimal string of an array
index: non-empty, all digits, and no leading zero except for `"0"`
itself. -/
def isCanonicalIndex : List Char → Bool
  | [] => false
  | c :: rest =>
      (c :: rest).all Char.isDigit && (c != '0' || rest.isEmpty)

/-- Numeric value of a decimal digit string. -/
def digitsVal (cs : List Char) : Nat :=
  cs.foldl (fun n c => n * 10 + (c.toNat - 48)) 0

/-- JavaScript `arr.hasOwnProperty(s)` for an Array `arr` and string key
`s`: true exactly for the `length` property and for canonical decimal
strings of indices below the length.  Path-shaped manifest names are never
own properties of the subscription array. -/
def jsArrayHasOwnProperty (l : List String) (s : String) : Bool :=
  if s = "length" then true
  else if isCanonicalIndex s.toList then
    decide (digitsVal s.toList < l.length)
  else false

/-- `pollRegister` (src/ifc2.js 712-724) restricted to the subscription
set it maintains: push the name unless `pollQ.hasOwnProperty(cmd)` holds
(callback bookkeeping and the `processPoll` kick do not touch `pollQ`). -/
def pollRegister (pollQ : List String) (cmd : String) : List String :=
  if jsArrayHasOwnProperty pollQ cmd then pollQ else pollQ ++ [cmd]

/-- Claim C7: the claim (and spec) says registration is idempotent by
name.  The guard `pollQ.hasOwnProperty(cmd)` tests for an array OWN
PROPERTY named by the string, which a path-shaped name never is, so a
second `pollRegister` of the same name appends a duplicate entry instead
of leaving the subscription set unchanged. -/
theorem pollRegister_duplicate_append :
    pollRegister (pollRegister [] "aircraft/0/alt") "aircraft/0/alt" =
      ["aircraft/0/alt", "aircraft/0/alt"] := by
  exact rfl

/-- JavaScript `arr.splice(start, 1)` restricted to its resulting array:
a negative `start` counts back from the end (clamped at 0), a too-large
`start` is clamped to the length, and one element at the resulting
position is removed. -/
def jsSplice1 {α : Type} (l : List α) (start : Int) : List α :=
  let s : Nat :=
    if start < 0 then (max ((l.length : Int) + start) 0).toNat
    else min start.toNat l.length
  l.take s ++ l.drop (s + 1)

/-- State the poll engine keeps for its subscription loop. -/
structure PollState where
  pollQ : List String
  pollCurrent : Nat
  isPollWaiting : Bool
deriving DecidableEq

/-- `pollDeregister` (src/ifc2.js 729-740): `indexOf` the name (−1 when
absent), `splice(index, 1)`, reset the cursor to 0 when it fell off the
end, and clear `isPollWaiting` when the set became empty. -/
def pollDeregister (st : PollState) (cmd : String) : PollState :=
  let index := jsIndexOf st.pollQ cmd
  let q := jsSplice1 st.pollQ index
  let cur := if q.length ≤ st.pollCurrent then 0 else st.pollCurrent
  let w := if q.length = 0 then false else st.isPollWaiting
  { pollQ := q, pollCurrent := cur, isPollWaiting := w }

theorem jsIndexOf_eq_neg_one {α : Type} [DecidableEq α] (l : List α)
    (y : α) (h : y ∉ l) : jsIndexOf l y = -1 := by
  induction l with
  | nil => rfl
  | cons x xs ih =>
    simp only [List.mem_cons, not_or] at h
    simp only [jsIndexOf]
    rw [if_neg fun hx => h.1 hx.symm, ih h.2]
    simp

theorem jsSplice1_neg_one {α : Type} (l : List α) :
    jsSplice1 l (-1) = l.dropLast := by
  cases l with
  | nil => rfl
  | cons x xs =>
    have hs : (if (-1 : Int) < 0 then
        (max (((x :: xs).length : Int) + (-1)) 0).toNat
      else min (-1 : Int).toNat (x :: xs).length) = xs.length := by
      rw [if_pos (by decide)]
      simp [List.length_cons]
    simp only [jsSplice1, hs]
    rw [List.dropLast_eq_take]
    have hdrop : (x :: xs).drop (xs.length + 1) = [] :=
      List.drop_eq_nil_of_le (by simp)
    rw [hdrop, List.append_nil]
    simp [List.length_cons]

/-- Claim C10: when the name to deregister is absent from the
subscription set, `indexOf` yields −1 and `splice(-1, 1)` removes the
LAST element; so `pollDeregister` drops the most recently registered
subscription whenever the set is non-empty, and leaves the set unchanged
exactly when it is empty. -/
theorem pollDeregister_absent_drops_last (st : PollState) (cmd : String)
    (h : cmd ∉ st.pollQ) :
    (pollDeregister st cmd).pollQ = st.pollQ.dropLast ∧
    (st.pollQ ≠ [] →
      (pollDeregister st cmd).pollQ.length + 1 = st.pollQ.length) := by
  have hq : (pollDeregister st cmd).pollQ = st.pollQ.dropLast := by
    show jsSplice1 st.pollQ (jsIndexOf st.pollQ cmd) = st.pollQ.dropLast
    rw [jsIndexOf_eq_neg_one st.pollQ cmd h, jsSplice1_neg_one]
  refine ⟨hq, fun hne => ?_⟩
  rw [hq, List.length_dropLast]
  have : 0 < st.pollQ.length := List.length_pos.mpr hne
  omega

/-- Witness for `pollDeregister_absent_drops_last` at a concrete state:
deregistering the absent name `"c"` from the set `["a", "b"]` drops the
last element `"b"`. -/
theorem pollDeregister_absent_drops_last_witness :
    ("c" ∉ ["a", "b"]) ∧
    (pollDeregister
        { pollQ := ["a", "b"], pollCurrent := 1, isPollWaiting := true }
        "c").pollQ = ["a"] := by
  refine ⟨by decide, ?_⟩
  have h := pollDeregister_absent_drops_last
    { pollQ := ["a", "b"], pollCurrent := 1, isPollWaiting := true }
    "c" (by decide)
  rw [h.1]
  rfl

/-! ## Instance state, `close` and the connection guard
(src/ifc2.js 308-416 and 1308-1379) -/

/-- The module-level state bag of the client that `close`, `get`, `set`
and `run` touch (socket objects themselves are not modelled; destroying
and recreating them has no effect on the fields below).  `closeCalls`
counts invocations of the embedder's close callback. -/
structure IFC2State where
  isConnected : Bool
  manifestByName : List (String × Int × WireType)
  manifestByCommand : List (Int × String × WireType)
  manifestData : List Nat
  manifestLength : Int
  manifestBuffer : Option (List Nat)
  isWaiting : Bool
  q : List String
  pollQ : List String
  waitList : List Int
  ifData : List (String × IFValue)
  qBuffer : Option (List Nat)
  pollBuffer : Option (List Nat)
  pollCurrent : Nat
  isPollWaiting : Bool
  closeCalls : Nat
deriving DecidableEq

/-- `close` (src/ifc2.js 1308-1379): when connected, clear
`isConnected`, reset the manifest data and both manifest indices, clear
`isWaiting`, empty both command queues, the wait list and the `ifData`
state cache; in every case invoke the embedder's callback once at the
end.  The source never touches `qBuffer`, `pollBuffer`, `pollCurrent` or
`isPollWaiting`. -/
def close (st : IFC2State) : IFC2State :=
  let st1 :=
    if st.isConnected then
      { st with isConnected := false, manifestData := [],
                manifestByName := [], manifestByCommand := [],
                manifestLength := 0, manifestBuffer := none,
                isWaiting := false, q := [], pollQ := [],
                waitList := [], ifData := [] }
    else st
  { st1 with closeCalls := st1.closeCalls + 1 }

/-- A connected instance with non-trivial contents in every field the
close claim mentions, including non-empty per-session receive buffers. -/
def c8Example : IFC2State :=
  { isConnected := true,
    manifestByName := [("a", 1, WireType.integer)],
    manifestByCommand := [(1, "a", WireType.integer)],
    manifestData := [49], manifestLength := 1,
    manifestBuffer := some [49],
    isWaiting := true, q := ["a"], pollQ := ["a"], waitList := [1],
    ifData := [("a", IFValue.intV 3)],
    qBuffer := some [9], pollBuffer := some [8],
    pollCurrent := 0, isPollWaiting := true, closeCalls := 0 }

/-- Claim C8 (counterexample): the claim says that after `close()` both
per-session receive buffers are empty.  Closing a connected instance
whose `qBuffer` is `[9]` and `pollBuffer` is `[8]` leaves both buffers
exactly as they were — `close` never resets them. -/
theorem close_leaves_receive_buffers :
    (close c8Example).qBuffer = some [9] ∧
    (close c8Example).qBuffer ≠ none ∧
    (close c8Example).pollBuffer = some [8] ∧
    (close c8Example).pollBuffer ≠ none := by
  exact ⟨rfl, by decide, rfl, by decide⟩

/-- Claim C8 (amended): after `close()` from any connected state, the
command queue, poll subscription set, wait list, both manifest indices
and the state cache are empty and the embedder's close callback has been
invoked exactly once — but the two per-session receive buffers are NOT
cleared: they retain whatever they held before the call. -/
theorem close_clears_except_buffers (st : IFC2State)
    (h : st.isConnected = true) :
    (close st).q = [] ∧ (close st).pollQ = [] ∧
    (close st).waitList = [] ∧
    (close st).manifestByName = [] ∧ (close st).manifestByCommand = [] ∧
    (close st).ifData = [] ∧
    (close st).closeCalls = st.closeCalls + 1 ∧
    (close st).qBuffer = st.qBuffer ∧
    (close st).pollBuffer = st.pollBuffer := by
  simp [close, h]

/-- Witness for `close_clears_except_buffers` at the concrete connected
instance `c8Example`. -/
theorem close_clears_except_buffers_witness :
    c8Example.isConnected = true ∧
    ((close c8Example).q = [] ∧ (close c8Example).pollQ = [] ∧
     (close c8Example).waitList = [] ∧
     (close c8Example).manifestByName = [] ∧
     (close c8Example).manifestByCommand = [] ∧
     (close c8Example).ifData = [] ∧
     (close c8Example).closeCalls = c8Example.closeCalls + 1 ∧
     (close c8Example).qBuffer = c8Example.qBuffer ∧
     (close c8Example).pollBuffer = c8Example.pollBuffer) :=
  ⟨rfl, close_clears_except_buffers c8Example rfl⟩

/-! ### Claim C9: `get`/`set`/`run` while not connected -/

/-- Which public operation is being invoked. -/
inductive CallKind where
  | getK
  | setK
  | runK
deriving DecidableEq

/-- Externally observable effects of a `get`/`set`/`run` call: a queue
append, a socket write, or an error report to the caller (the module has
no error-report path in these functions, but the claim needs the
vocabulary to state one). -/
inductive CallEffect where
  | enqueued (cmd : String)
  | wrote (cmd : String)
  | errorReported (code : String)
deriving DecidableEq

/-- `get`/`set`/`run` (src/ifc2.js 379-416): each begins with
`if (IFC2.isConnected)` and otherwise returns with no action and no
error.  When connected they defer to `enqueueCommand` (src/ifc2.js
345-374): look up the name in `manifestByName` (`none` models the
`TypeError` thrown on an unknown name), then push onto `q` for a get, or
build and write the frame for a set (`setCommand` may throw) or a run.
Callback bookkeeping does not affect these observables and is omitted. -/
def clientCall (st : IFC2State) (k : CallKind) (cmd : String)
    (v : SetValue) : Option (IFC2State × List CallEffect) :=
  if st.isConnected then
    match st.manifestByName.lookup cmd with
    | none => none
    | some (code, t) =>
      match k with
      | .getK => some ({ st with q := st.q ++ [cmd] }, [.enqueued cmd])
      | .setK => (setCommand code t v).map fun _ => (st, [.wrote cmd])
      | .runK => some (st, [.wrote cmd])
  else some (st, [])

/-- A disconnected instance (as before `ready` or after `close`) with a
populated manifest left over for the lookup path. -/
def c9Example : IFC2State :=
  { c8Example with isConnected := false }

/-- Claim C9 (counterexample): the claim says a `get` before `ready` or
after `close` is rejected with a `NotConnected` error reported
synchronously.  Invoking `get` on a disconnected instance returns with
the state unchanged and an EMPTY effect list: no error of any kind is
reported to the caller — the call is silently dropped. -/
theorem call_not_connected_silent :
    clientCall c9Example CallKind.getK "a"
        (SetValue.num 0 [] [] []) = some (c9Example, []) ∧
    ¬ ∃ st2 effs, clientCall c9Example CallKind.getK "a"
        (SetValue.num 0 [] [] []) = some (st2, effs) ∧
      CallEffect.errorReported "NotConnected" ∈ effs := by
  refine ⟨rfl, ?_⟩
  rintro ⟨st2, effs, heq, hmem⟩
  have h1 : clientCall c9Example CallKind.getK "a"
      (SetValue.num 0 [] [] []) = some (c9Example, ([] : List CallEffect)) :=
    rfl
  rw [h1] at heq
  injection heq with h2
  have h3 : effs = [] := (congrArg Prod.snd h2).symm
  rw [h3] at hmem
  exact (List.not_mem_nil _) hmem

/-- Claim C9 (amended): every invocation of `get`, `set` or `run` while
not connected (before `ready` or after `close`) is silently ignored: the
state is unchanged and no effect — in particular no error report — is
produced. -/
theorem call_not_connected_noop (st : IFC2State) (k : CallKind)
    (cmd : String) (v : SetValue) (h : st.isConnected = false) :
    clientCall st k cmd v = some (st, []) := by
  simp [clientCall, h]

/-- Witness for `call_not_connected_noop` at the concrete disconnected
instance `c9Example`. -/
theorem call_not_connected_noop_witness :
    c9Example.isConnected = false ∧
    clientCall c9Example CallKind.setK "a"
        (SetValue.num 0 [] [] []) = some (c9Example, []) :=
  ⟨rfl, call_not_connected_noop c9Example CallKind.setK "a"
    (SetValue.num 0 [] [] []) rfl⟩

end Ifc2
